import Mathlib

/-!
Verification of the taiwan-tide-calendar pipeline: a shallow embedding of the
tide-event normalizer (`parse_tide_events`), the window filter and calendar
serializer (`create_ical`) from both `tide_calendar.py` and the Vercel variant
`api/index.py`, together with the station-directory loader
(`_load_tide_stations`) and the `/tide/<station>.ics` route of `server.py`.

Conventions of the embedding:
* Python JSON values (dict/list/str/int/None) are the inductive `Json`;
  Python truthiness is `pyTruthy`, `a or b` is `pyOr`, `d.get(k, default)`
  is `jGetD` (raising `AttributeError` on a non-dict, like Python).
* Raised exceptions are `Except.error`; the warning diagnostics emitted via
  `logger.warning` on timestamp-parse failure are collected in a log list.
* `datetime` values are `PyDateTime` (wall-clock fields in Asia/Taipei, a
  fixed-offset zone with no DST, so instant comparison and `timedelta`
  arithmetic agree with arithmetic on `PyDateTime.toSec`, the proleptic
  Gregorian second count that Python's `toordinal`-based ordering uses).
* `datetime.fromisoformat` is a library routine, kept abstract as a
  parameter `piso : String → Option PyDateTime` (`none` models `ValueError`).
-/

/-- JSON values as delivered by the upstream API: the Python dict/list/str/int
values the code manipulates. -/
inductive Json where
  | null : Json
  | str : String → Json
  | num : Int → Json
  | arr : List Json → Json
  | obj : List (String × Json) → Json

/-- Python truthiness of a JSON value: empty string, zero, empty list/dict and
None are falsy. -/
def pyTruthy : Json → Bool
  | .null => false
  | .str s => !(s == "")
  | .num n => !(n == 0)
  | .arr xs => !xs.isEmpty
  | .obj kvs => !kvs.isEmpty

/-- Python `a or b`: the first operand if truthy, otherwise the second. -/
def pyOr (a b : Json) : Json := if pyTruthy a then a else b

/-- Python `j == s` for a string literal `s`: true exactly when `j` is that
string (values of other types are never equal to a `str`). -/
def jEqStr (j : Json) (s : String) : Bool :=
  match j with
  | .str t => t == s
  | _ => false

/-- Python `str(x)` / f-string rendering of the scalar JSON values the
payload fields hold.  Lists and dicts would render via `repr`; no claim
exercises that case, so they are rendered as fixed placeholders. -/
def pyStr : Json → String
  | .null => "None"
  | .str s => s
  | .num n => toString n
  | .arr _ => "[...]"
  | .obj _ => "(...)"

/-- Python `d.get(k, default)`: succeeds on a dict, raises `AttributeError`
otherwise.  The default argument is evaluated eagerly by Python, matching the
strict argument here. -/
def jGetD (j : Json) (k : String) (d : Json) : Except String Json :=
  match j with
  | .obj kvs => .ok ((kvs.lookup k).getD d)
  | _ => .error "AttributeError"

/-- Python `for x in j:` over a value expected to be a list; iteration over
anything else is modelled as an error (a non-list here would raise or iterate
dict keys, neither of which yields forecast rows). -/
def Json.asArr : Json → Except String (List Json)
  | .arr xs => .ok xs
  | _ => .error "TypeError"

/-- A Python `datetime` in the fixed Asia/Taipei zone, as wall-clock fields.
Python's `datetime` guarantees `1 ≤ year ≤ 9999`, `1 ≤ month ≤ 12`, etc. -/
structure PyDateTime where
  year : Nat
  month : Nat
  day : Nat
  hour : Nat
  minute : Nat
  second : Nat
deriving DecidableEq

/-- Gregorian leap-year test. -/
def isLeap (y : Nat) : Bool := (y % 4 == 0 && y % 100 != 0) || y % 400 == 0

/-- Days in the months strictly before month `m` of a non-leap year. -/
def cumMonthDays (m : Nat) : Nat :=
  [0, 31, 59, 90, 120, 151, 181, 212, 243, 273, 304, 334].getD (m - 1) 0

/-- Seconds since 0001-01-01 00:00:00 in the proleptic Gregorian calendar;
aware datetimes in one fixed-offset zone compare and subtract exactly as
these counts do. -/
def PyDateTime.toSec (t : PyDateTime) : Int :=
  let leapAdd : Nat := if 2 < t.month && isLeap t.year then 1 else 0
  let days : Nat := 365 * (t.year - 1) + (t.year - 1) / 4 - (t.year - 1) / 100
      + (t.year - 1) / 400 + cumMonthDays t.month + leapAdd + (t.day - 1)
  ((days * 86400 + t.hour * 3600 + t.minute * 60 + t.second : Nat) : Int)

/-- A normalized tide event, as the dicts appended by `parse_tide_events`:
`{"datetime": dt, "type": tide_type, "height": height, "lunar_day": lunar_date}`.
The non-datetime fields keep whatever JSON values the payload carried. -/
structure TideEvent where
  datetime : PyDateTime
  tideType : Json
  height : Json
  lunar_day : Json

/-- The `logger.warning` diagnostic recorded when `datetime.fromisoformat`
raises `ValueError` (the exception text itself is not modelled). -/
def parseFailMsg (s : String) : String := "日期解析失敗: " ++ s

/-- Runs the body of a Python `for` loop that appends to a shared events list
and a shared diagnostics list, left to right, propagating any raised
exception. -/
def gatherM (f : Json → Except String (List TideEvent × List String)) :
    List Json → Except String (List TideEvent × List String)
  | [] => .ok ([], [])
  | x :: xs => do
    let r ← f x
    let rest ← gatherM f xs
    .ok (r.1 ++ rest.1, r.2 ++ rest.2)

/-- Height resolution of `tide_calendar.py` (lines 132-135):
`AboveLocalMSL or AboveTWVD or AboveChartDatum`. -/
def tideRowHeight (th : Json) : Except String Json := do
  let hLocal ← jGetD th "AboveLocalMSL" (.str "")
  let hTwvd ← jGetD th "AboveTWVD" (.str "")
  let hChart ← jGetD th "AboveChartDatum" (.str "")
  .ok (pyOr hLocal (pyOr hTwvd hChart))

/-- Height resolution of `api/index.py` (lines 137-140):
`AboveTWVD or AboveLocalMSL or AboveChartDatum`. -/
def apiRowHeight (th : Json) : Except String Json := do
  let hTwvd ← jGetD th "AboveTWVD" (.str "")
  let hLocal ← jGetD th "AboveLocalMSL" (.str "")
  let hChart ← jGetD th "AboveChartDatum" (.str "")
  .ok (pyOr hTwvd (pyOr hLocal hChart))

/-- One iteration of the inner `for tide_info in time_list:` loop.  The two
source variants differ only in the height-selection lines, passed in as
`heightSel`.  An empty/absent `DateTime` skips the row silently; a string
`DateTime` that fails `fromisoformat` (`piso _ = none`) skips the row with a
diagnostic; a truthy non-string `DateTime` raises `TypeError`. -/
def rowEvents (piso : String → Option PyDateTime)
    (heightSel : Json → Except String Json) (lunarDate : Json)
    (tideInfo : Json) : Except String (List TideEvent × List String) := do
  let tideType ← jGetD tideInfo "Tide" (.str "")
  let dateTimeJ ← jGetD tideInfo "DateTime" (.str "")
  let tideHeight ← jGetD tideInfo "TideHeights" (.obj [])
  let height ← heightSel tideHeight
  if pyTruthy dateTimeJ then
    match dateTimeJ with
    | .str s =>
      match piso s with
      | some dt => .ok ([⟨dt, tideType, height, lunarDate⟩], [])
      | none => .ok ([], [parseFailMsg s])
    | _ => .error "TypeError"
  else
    .ok ([], [])

/-- One iteration of the `for daily in daily_list:` loop. -/
def dailyEvents (piso : String → Option PyDateTime)
    (heightSel : Json → Except String Json) (daily : Json) :
    Except String (List TideEvent × List String) := do
  let lunarDate ← jGetD daily "LunarDate" (.str "")
  let timeList ← (← jGetD daily "Time" (.arr [])).asArr
  gatherM (rowEvents piso heightSel lunarDate) timeList

/-- One iteration of the `for forecast in tide_forecasts:` loop in
`tide_calendar.py`: re-checks `LocationName` against the requested station
name and skips the whole block when they differ (line 113). -/
def forecastEventsTide (piso : String → Option PyDateTime)
    (stationName : String) (forecast : Json) :
    Except String (List TideEvent × List String) := do
  let location ← jGetD forecast "Location" (.obj [])
  let locationName ← jGetD location "LocationName" (.str "")
  if !(jEqStr locationName stationName) then
    .ok ([], [])
  else do
    let timePeriods ← jGetD location "TimePeriods" (.obj [])
    let dailyList ← (← jGetD timePeriods "Daily" (.arr [])).asArr
    gatherM (dailyEvents piso tideRowHeight) dailyList

/-- One iteration of the `for forecast in tide_forecasts:` loop in
`api/index.py`: `LocationName` is read (and only logged), never compared. -/
def forecastEventsApi (piso : String → Option PyDateTime) (forecast : Json) :
    Except String (List TideEvent × List String) := do
  let location ← jGetD forecast "Location" (.obj [])
  let _locationName ← jGetD location "LocationName" (.str "")
  let timePeriods ← jGetD location "TimePeriods" (.obj [])
  let dailyList ← (← jGetD timePeriods "Daily" (.arr [])).asArr
  gatherM (dailyEvents piso apiRowHeight) dailyList

/-- `TideCalendarGenerator.parse_tide_events` of `tide_calendar.py` (lines
94-156).  Returns the events list together with the warning diagnostics; the
`except (KeyError, TypeError)` clause there logs and re-raises, so raised
exceptions propagate unchanged, as `Except.error` here. -/
def parse_tide_events (piso : String → Option PyDateTime)
    (stationName : String) (apiData : Json) :
    Except String (List TideEvent × List String) := do
  let records ← jGetD apiData "records" (.obj [])
  let fallback ← jGetD records "TideForecast" (.arr [])
  let tideForecasts ← (← jGetD records "TideForecasts" fallback).asArr
  gatherM (forecastEventsTide piso stationName) tideForecasts

/-- `TideCalendarGenerator.parse_tide_events` of `api/index.py` (lines
102-157).  `stationName` mirrors `self.station_name`, which this variant
never consults. -/
def parse_tide_events_api (piso : String → Option PyDateTime)
    (stationName : String) (apiData : Json) :
    Except String (List TideEvent × List String) := do
  let _ := stationName
  let records ← jGetD apiData "records" (.obj [])
  let fallback ← jGetD records "TideForecast" (.arr [])
  let tideForecasts ← (← jGetD records "TideForecasts" fallback).asArr
  gatherM (forecastEventsApi piso) tideForecasts

/-- The events component of a parse outcome (`none` when an exception was
raised). -/
def resultEvents (r : Except String (List TideEvent × List String)) :
    Option (List TideEvent) :=
  (r.toOption).map Prod.fst

/-- The diagnostics component of a parse outcome. -/
def resultLogs (r : Except String (List TideEvent × List String)) :
    Option (List String) :=
  (r.toOption).map Prod.snd

/-- The station-name simplification used in event titles:
`.replace("市","").replace("縣","").replace("區","").replace("鄉","").replace("鎮","")`. -/
def shortName (st : String) : String :=
  ((((st.replace "市" "").replace "縣" "").replace "區" "").replace "鄉" "").replace "鎮" ""

/-- `w`-digit zero-padded decimal rendering of `n` (its value modulo `10^w`;
all strftime fields in play satisfy the bound). -/
def padNum : Nat → Nat → List Char
  | 0, _ => []
  | w + 1, n => padNum w (n / 10) ++ [Nat.digitChar (n % 10)]

/-- `event_dt.strftime('%Y%m%d%H%M')` for the 4-digit years Python's
`datetime` produces from ISO input. -/
def strftimeYmdHM (t : PyDateTime) : String :=
  ⟨padNum 4 t.year ++ padNum 2 t.month ++ padNum 2 t.day ++ padNum 2 t.hour
    ++ padNum 2 t.minute⟩

/-- The event unique identifier (tide_calendar.py line 217 = api/index.py
line 211): `f"(strftime)-(tide_type)-(station_name)@tide.tw"`. -/
def eventUid (t : PyDateTime) (tideType : Json) (stationName : String) : String :=
  strftimeYmdHM t ++ "-" ++ pyStr tideType ++ "-" ++ stationName ++ "@tide.tw"

/-- One serialized VEVENT block, by field.  `dtend` is start + 30 minutes and
is recorded as its instant in seconds. -/
structure VEvent where
  summary : String
  dtstart : PyDateTime
  dtendSec : Int
  description : String
  uid : String
  dtstamp : PyDateTime
deriving DecidableEq

/-- The per-event body shared verbatim by both `create_ical` variants
(tide_calendar.py lines 188-223, api/index.py lines 185-215).  `now` stands
for the `datetime.now(TW_TZ)` calls of the generating run; the source calls
it once more per event for `dtstamp`, modelled as the same generation
instant. -/
def mkVEvent (stationName : String) (now : PyDateTime) (e : TideEvent) : VEvent :=
  let emoji := if jEqStr e.tideType "滿潮" then "🔺" else "🔻"
  let title0 := shortName stationName ++ " " ++ emoji ++ pyStr e.tideType
  let title :=
    if pyTruthy e.height then title0 ++ " " ++ pyStr e.height ++ "cm" else title0
  let d0 := "站點: " ++ stationName ++ "\n" ++ "類型: " ++ pyStr e.tideType ++ "\n"
  let d1 :=
    if pyTruthy e.height then d0 ++ "潮位: " ++ pyStr e.height ++ " cm (平均海平面基準)\n"
    else d0
  let d2 := if pyTruthy e.lunar_day then d1 ++ "農曆: " ++ pyStr e.lunar_day else d1
  { summary := title
    dtstart := e.datetime
    dtendSec := e.datetime.toSec + 1800
    description := d2
    uid := eventUid e.datetime e.tideType stationName
    dtstamp := now }

/-- The window test of `tide_calendar.py` create_ical (lines 178-186): keep
`event_dt` unless `event_dt < now or event_dt > now + timedelta(days=days_ahead)`. -/
def windowKeep_tide (now : PyDateTime) (daysAhead : Int) (t : PyDateTime) : Bool :=
  let cutoffSec := now.toSec + 86400 * daysAhead
  !(decide (t.toSec < now.toSec) || decide (t.toSec > cutoffSec))

/-- The window test of `api/index.py` create_ical (lines 169-181): keep
`event_dt` unless `event_dt < now - timedelta(days=1) or event_dt > now +
timedelta(days=days_ahead)`. -/
def windowKeep_api (now : PyDateTime) (daysAhead : Int) (t : PyDateTime) : Bool :=
  let cutoffSec := now.toSec + 86400 * daysAhead
  let startSec := now.toSec - 86400
  !(decide (t.toSec < startSec) || decide (t.toSec > cutoffSec))

/-- The serialized calendar document, by field. -/
structure ICal where
  prodid : String
  version : String
  calscale : String
  icsMethod : String
  calname : String
  timezone : String
  events : List VEvent
deriving DecidableEq

/-- `TideCalendarGenerator.create_ical` of `tide_calendar.py` (lines
158-228); `now` is the run's `datetime.now(TW_TZ)`. -/
def create_ical (stationName : String) (events : List TideEvent)
    (daysAhead : Int) (now : PyDateTime) : ICal :=
  { prodid := "-//台灣潮汐日曆//" ++ stationName ++ "//TW"
    version := "2.0"
    calscale := "GREGORIAN"
    icsMethod := "PUBLISH"
    calname := "🌊 " ++ stationName ++ "潮汐"
    timezone := "Asia/Taipei"
    events := (events.filter fun e => windowKeep_tide now daysAhead e.datetime).map
      (mkVEvent stationName now) }

/-- `TideCalendarGenerator.create_ical` of `api/index.py` (lines 159-218). -/
def create_ical_api (stationName : String) (events : List TideEvent)
    (daysAhead : Int) (now : PyDateTime) : ICal :=
  { prodid := "-//台灣潮汐日曆//" ++ stationName ++ "//TW"
    version := "2.0"
    calscale := "GREGORIAN"
    icsMethod := "PUBLISH"
    calname := "🌊 " ++ stationName ++ "潮汐"
    timezone := "Asia/Taipei"
    events := (events.filter fun e => windowKeep_api now daysAhead e.datetime).map
      (mkVEvent stationName now) }

/-- A fixed placeholder instant used to blank out `dtstamp` fields. -/
def epochZero : PyDateTime := ⟨1, 1, 1, 0, 0, 0⟩

/-- Erases the generation-timestamp field of every event block: two documents
are "identical except for dtstamp" exactly when their `stripStamps` images
are equal. -/
def ICal.stripStamps (c : ICal) : ICal :=
  { c with events := c.events.map fun v => { v with dtstamp := epochZero } }

/-- Outcome of the file open + `json.load` step of `_load_tide_stations`:
the file may be missing (`FileNotFoundError`), undecodable
(`JSONDecodeError`), or parsed to a JSON value. -/
inductive LoadInput where
  | fileMissing
  | decodeError
  | parsed (j : Json)

/-- Exceptions the dict-comprehension step of `_load_tide_stations` can
raise: `KeyError` (caught by the source) or `TypeError` (not caught). -/
inductive BuildErr where
  | keyError
  | typeError

/-- `{loc["LocationName"]: loc["LocationId"] for loc in locations}` over a
parsed list: a non-dict element raises `TypeError`, a dict missing either
key raises `KeyError`.  (Python's later-duplicate-wins dict semantics is not
relevant to any claim; the pairs are kept in order.) -/
def buildStationList : List Json → Except BuildErr (List (Json × Json))
  | [] => .ok []
  | loc :: rest =>
    match loc with
    | .obj kvs =>
      match kvs.lookup "LocationName", kvs.lookup "LocationId" with
      | some nm, some lid => (buildStationList rest).map fun m => (nm, lid) :: m
      | _, _ => .error .keyError
    | _ => .error .typeError

/-- The comprehension applied to the whole decoded JSON value; iterating a
non-list raises `TypeError`. -/
def buildStations : Json → Except BuildErr (List (Json × Json))
  | .arr locs => buildStationList locs
  | _ => .error .typeError

/-- `_load_tide_stations` of `tide_calendar.py` (lines 31-42): file-missing,
decode and `KeyError` failures are caught and yield the empty directory;
`TypeError` is not in the except clause and propagates. -/
def load_tide_stations (input : LoadInput) : Except String (List (Json × Json)) :=
  match input with
  | .fileMissing => .ok []
  | .decodeError => .ok []
  | .parsed j =>
    match buildStations j with
    | .ok m => .ok m
    | .error .keyError => .ok []
    | .error .typeError => .error "TypeError"

/-- The responses the `/tide/<station>.ics` route of `server.py` can return
up to its station check; the successful generation branch is abstracted as
`calendarResp` carrying the clamped days parameter. -/
inductive HttpResp where
  | keyNotConfigured
  | unknownStation (error : String) (available : List Json)
  | calendarResp (station : String) (days : Int)

/-- `days = min(max(days, 7), 30)` from `server.py` line 177. -/
def clampDays (d : Int) : Int := min (max d 7) 30

/-- `tide_calendar` route of `server.py` (lines 159-203) up to dispatching
generation: API-key check, then station lookup returning the 404 payload
`{"error": f"Unknown station: (station)", "available_stations": list(TIDE_STATIONS.keys())}`. -/
def tide_calendar_route (apiKey : String) (stations : List (Json × Json))
    (station : String) (daysArg : Int) : HttpResp :=
  if apiKey == "" then .keyNotConfigured
  else if !((stations.map Prod.fst).any fun k => jEqStr k station) then
    .unknownStation ("Unknown station: " ++ station) (stations.map Prod.fst)
  else .calendarResp station (clampDays daysArg)

/-- A well-formed extremum row as the structured payloads of §4.3 carry it:
a kind label, a `DateTime` string (possibly empty = absent), and a
`TideHeights` object. -/
structure TideRow where
  tide : Json
  dateTime : String
  heights : List (String × Json)

/-- A daily sub-block: lunar-date annotation plus its extremum rows. -/
structure DailyBlock where
  lunarDate : Json
  rows : List TideRow

/-- A per-location forecast block. -/
structure LocationBlock where
  name : String
  dailies : List DailyBlock

/-- The JSON encoding of one extremum row, as the upstream schema nests it. -/
def encodeRow (r : TideRow) : Json :=
  .obj [("Tide", r.tide), ("DateTime", .str r.dateTime),
    ("TideHeights", .obj r.heights)]

/-- The JSON encoding of one daily sub-block. -/
def encodeDaily (d : DailyBlock) : Json :=
  .obj [("LunarDate", d.lunarDate), ("Time", .arr (d.rows.map encodeRow))]

/-- The JSON encoding of one per-location forecast block. -/
def encodeLoc (l : LocationBlock) : Json :=
  .obj [("Location", .obj [("LocationName", .str l.name),
    ("TimePeriods", .obj [("Daily", .arr (l.dailies.map encodeDaily))])])]

/-- The JSON encoding of a whole payload under the plural top-level key. -/
def encodePayload (ls : List LocationBlock) : Json :=
  .obj [("records", .obj [("TideForecasts", .arr (ls.map encodeLoc))])]

/-- The value `tide_calendar.py` selects from a `TideHeights` object. -/
def rowHeightTideVal (hs : List (String × Json)) : Json :=
  pyOr ((hs.lookup "AboveLocalMSL").getD (.str ""))
    (pyOr ((hs.lookup "AboveTWVD").getD (.str ""))
      ((hs.lookup "AboveChartDatum").getD (.str "")))

/-- The value `api/index.py` selects from a `TideHeights` object. -/
def rowHeightApiVal (hs : List (String × Json)) : Json :=
  pyOr ((hs.lookup "AboveTWVD").getD (.str ""))
    (pyOr ((hs.lookup "AboveLocalMSL").getD (.str ""))
      ((hs.lookup "AboveChartDatum").getD (.str "")))

/-- Stated from the claim wording: the normalized event of one extremum row —
present exactly when the row's `DateTime` string is non-empty and parses;
rows with an absent/empty or unparseable timestamp yield no event. -/
def specRowEvent (piso : String → Option PyDateTime)
    (selVal : List (String × Json) → Json) (lun : Json) (r : TideRow) :
    Option TideEvent :=
  if r.dateTime = "" then none
  else (piso r.dateTime).map fun dt => ⟨dt, r.tide, selVal r.heights, lun⟩

/-- Stated from the claim wording: the diagnostics of one extremum row — one
recorded diagnostic exactly when the `DateTime` string is non-empty but
unparseable; an absent/empty `DateTime` is silent. -/
def specRowLog (piso : String → Option PyDateTime) (r : TideRow) : List String :=
  if r.dateTime = "" then []
  else
    match piso r.dateTime with
    | some _ => []
    | none => [parseFailMsg r.dateTime]

/-- Events of one daily block under the tide_calendar.py height selection. -/
def specDailyEventsTide (piso : String → Option PyDateTime) (d : DailyBlock) :
    List TideEvent :=
  d.rows.flatMap fun r => (specRowEvent piso rowHeightTideVal d.lunarDate r).toList

/-- Events of one daily block under the api/index.py height selection. -/
def specDailyEventsApi (piso : String → Option PyDateTime) (d : DailyBlock) :
    List TideEvent :=
  d.rows.flatMap fun r => (specRowEvent piso rowHeightApiVal d.lunarDate r).toList

/-- Diagnostics of one daily block. -/
def specDailyLogs (piso : String → Option PyDateTime) (d : DailyBlock) :
    List String :=
  d.rows.flatMap (specRowLog piso)

/-- All normalized events of a structured payload, tide_calendar.py variant:
only blocks whose name equals the requested station contribute. -/
def specEventsTide (piso : String → Option PyDateTime) (st : String)
    (ls : List LocationBlock) : List TideEvent :=
  ls.flatMap fun l =>
    if l.name == st then l.dailies.flatMap (specDailyEventsTide piso) else []

/-- All diagnostics of a structured payload, tide_calendar.py variant. -/
def specLogsTide (piso : String → Option PyDateTime) (st : String)
    (ls : List LocationBlock) : List String :=
  ls.flatMap fun l =>
    if l.name == st then l.dailies.flatMap (specDailyLogs piso) else []

/-- All normalized events of a structured payload, api/index.py variant:
every block contributes (no name re-check). -/
def specEventsApi (piso : String → Option PyDateTime)
    (ls : List LocationBlock) : List TideEvent :=
  ls.flatMap fun l => l.dailies.flatMap (specDailyEventsApi piso)

/-- All diagnostics of a structured payload, api/index.py variant. -/
def specLogsApi (piso : String → Option PyDateTime)
    (ls : List LocationBlock) : List String :=
  ls.flatMap fun l => l.dailies.flatMap (specDailyLogs piso)

/-- Removes the rows whose `DateTime` string is empty (absent). -/
def dropEmptyRows (ls : List LocationBlock) : List LocationBlock :=
  ls.map fun l =>
    { l with dailies := l.dailies.map fun d =>
        { d with rows := d.rows.filter fun r => !(r.dateTime == "") } }

theorem tideRowHeight_obj (hs : List (String × Json)) :
    tideRowHeight (.obj hs) = .ok (rowHeightTideVal hs) := rfl

theorem apiRowHeight_obj (hs : List (String × Json)) :
    apiRowHeight (.obj hs) = .ok (rowHeightApiVal hs) := rfl

theorem gatherM_map_ok {α : Type} (f : Json → Except String (List TideEvent × List String))
    (enc : α → Json) (g : α → List TideEvent) (h : α → List String)
    (hf : ∀ a, f (enc a) = .ok (g a, h a)) :
    ∀ xs : List α, gatherM f (xs.map enc) = .ok (xs.flatMap g, xs.flatMap h)
  | [] => by simp [gatherM]
  | x :: xs => by
    simp [gatherM, hf x, gatherM_map_ok f enc g h hf xs, Bind.bind, Except.bind]

theorem rowEvents_encodeRow (piso : String → Option PyDateTime)
    (sel : Json → Except String Json) (selVal : List (String × Json) → Json)
    (hsel : ∀ hs, sel (Json.obj hs) = .ok (selVal hs)) (lun : Json) (r : TideRow) :
    rowEvents piso sel lun (encodeRow r) =
      .ok ((specRowEvent piso selVal lun r).toList, specRowLog piso r) := by
  by_cases hdt : r.dateTime = "" <;>
    cases hp : piso r.dateTime <;>
    simp [rowEvents, encodeRow, jGetD, List.lookup, hsel, specRowEvent, specRowLog,
      pyTruthy, Bind.bind, Except.bind, hdt, hp]

theorem dailyEvents_encodeDaily (piso : String → Option PyDateTime)
    (sel : Json → Except String Json) (selVal : List (String × Json) → Json)
    (hsel : ∀ hs, sel (Json.obj hs) = .ok (selVal hs)) (d : DailyBlock) :
    dailyEvents piso sel (encodeDaily d) =
      .ok (d.rows.flatMap (fun r => (specRowEvent piso selVal d.lunarDate r).toList),
        d.rows.flatMap (specRowLog piso)) := by
  have hrows := gatherM_map_ok (rowEvents piso sel d.lunarDate) encodeRow
    (fun r => (specRowEvent piso selVal d.lunarDate r).toList) (specRowLog piso)
    (rowEvents_encodeRow piso sel selVal hsel d.lunarDate) d.rows
  simp [dailyEvents, encodeDaily, jGetD, List.lookup, Json.asArr, Bind.bind,
    Except.bind, hrows]

theorem forecastEventsTide_encodeLoc (piso : String → Option PyDateTime)
    (st : String) (l : LocationBlock) :
    forecastEventsTide piso st (encodeLoc l) =
      .ok (if l.name == st then l.dailies.flatMap (specDailyEventsTide piso) else [],
        if l.name == st then l.dailies.flatMap (specDailyLogs piso) else []) := by
  have hds := gatherM_map_ok (dailyEvents piso tideRowHeight) encodeDaily
    (specDailyEventsTide piso) (specDailyLogs piso)
    (fun d => by
      simpa [specDailyEventsTide, specDailyLogs] using
        dailyEvents_encodeDaily piso tideRowHeight rowHeightTideVal tideRowHeight_obj d)
    l.dailies
  by_cases hn : l.name == st <;>
    simp [forecastEventsTide, encodeLoc, jGetD, List.lookup, jEqStr, Json.asArr,
      Bind.bind, Except.bind, hn, hds]

theorem forecastEventsApi_encodeLoc (piso : String → Option PyDateTime)
    (l : LocationBlock) :
    forecastEventsApi piso (encodeLoc l) =
      .ok (l.dailies.flatMap (specDailyEventsApi piso),
        l.dailies.flatMap (specDailyLogs piso)) := by
  have hds := gatherM_map_ok (dailyEvents piso apiRowHeight) encodeDaily
    (specDailyEventsApi piso) (specDailyLogs piso)
    (fun d => by
      simpa [specDailyEventsApi, specDailyLogs] using
        dailyEvents_encodeDaily piso apiRowHeight rowHeightApiVal apiRowHeight_obj d)
    l.dailies
  simp [forecastEventsApi, encodeLoc, jGetD, List.lookup, Json.asArr,
    Bind.bind, Except.bind, hds]

theorem parse_tide_events_encode (piso : String → Option PyDateTime)
    (st : String) (ls : List LocationBlock) :
    parse_tide_events piso st (encodePayload ls) =
      .ok (specEventsTide piso st ls, specLogsTide piso st ls) := by
  have hls := gatherM_map_ok (forecastEventsTide piso st) encodeLoc
    (fun l => if l.name == st then l.dailies.flatMap (specDailyEventsTide piso) else [])
    (fun l => if l.name == st then l.dailies.flatMap (specDailyLogs piso) else [])
    (forecastEventsTide_encodeLoc piso st) ls
  simp [parse_tide_events, encodePayload, jGetD, List.lookup, Json.asArr,
    Bind.bind, Except.bind, hls, specEventsTide, specLogsTide]

theorem parse_tide_events_api_encode (piso : String → Option PyDateTime)
    (st : String) (ls : List LocationBlock) :
    parse_tide_events_api piso st (encodePayload ls) =
      .ok (specEventsApi piso ls, specLogsApi piso ls) := by
  have hls := gatherM_map_ok (forecastEventsApi piso) encodeLoc
    (fun l => l.dailies.flatMap (specDailyEventsApi piso))
    (fun l => l.dailies.flatMap (specDailyLogs piso))
    (forecastEventsApi_encodeLoc piso) ls
  simp [parse_tide_events_api, encodePayload, jGetD, List.lookup, Json.asArr,
    Bind.bind, Except.bind, hls, specEventsApi, specLogsApi]

theorem padNum_length (w : Nat) : ∀ n, (padNum w n).length = w := by
  induction w with
  | zero => intro n; rfl
  | succ w ih => intro n; simp [padNum, ih]

theorem digitChar_inj (a b : Nat) (ha : a < 10) (hb : b < 10)
    (h : Nat.digitChar a = Nat.digitChar b) : a = b := by
  have key : ∀ x y : Fin 10, Nat.digitChar x.val = Nat.digitChar y.val → x = y := by
    decide
  have := key ⟨a, ha⟩ ⟨b, hb⟩ h
  exact congrArg Fin.val this

theorem padNum_inj (w : Nat) : ∀ n m, n < 10 ^ w → m < 10 ^ w →
    padNum w n = padNum w m → n = m := by
  induction w with
  | zero =>
    intro n m hn hm _
    simp [pow_zero, Nat.lt_one_iff] at hn hm
    omega
  | succ w ih =>
    intro n m hn hm h
    simp only [padNum] at h
    have hpre := List.append_inj h (by simp [padNum_length])
    have hdiv : n / 10 = m / 10 := by
      refine ih _ _ ?_ ?_ hpre.1
      · exact Nat.div_lt_of_lt_mul (by rwa [← pow_succ'])
      · exact Nat.div_lt_of_lt_mul (by rwa [← pow_succ'])
    have hmod : n % 10 = m % 10 := by
      have := hpre.2
      simp only [List.cons.injEq] at this
      exact digitChar_inj _ _ (Nat.mod_lt _ (by norm_num))
        (Nat.mod_lt _ (by norm_num)) this.1
    omega

/-- Field bounds guaranteed by Python's `datetime` (year at most 9999, the
other strftime fields two digits), under which `%Y%m%d%H%M` is faithful and
injective. -/
def validStamp (t : PyDateTime) : Prop :=
  t.year < 10000 ∧ t.month < 100 ∧ t.day < 100 ∧ t.hour < 100 ∧ t.minute < 100

instance (t : PyDateTime) : Decidable (validStamp t) := by
  unfold validStamp; infer_instance

theorem strftimeYmdHM_inj (t₁ t₂ : PyDateTime)
    (h₁ : validStamp t₁) (h₂ : validStamp t₂)
    (h : strftimeYmdHM t₁ = strftimeYmdHM t₂) :
    t₁.year = t₂.year ∧ t₁.month = t₂.month ∧ t₁.day = t₂.day ∧
      t₁.hour = t₂.hour ∧ t₁.minute = t₂.minute := by
  obtain ⟨hy₁, hmo₁, hd₁, hh₁, hmi₁⟩ := h₁
  obtain ⟨hy₂, hmo₂, hd₂, hh₂, hmi₂⟩ := h₂
  have hdata : padNum 4 t₁.year ++ (padNum 2 t₁.month ++ (padNum 2 t₁.day ++
      (padNum 2 t₁.hour ++ padNum 2 t₁.minute))) =
      padNum 4 t₂.year ++ (padNum 2 t₂.month ++ (padNum 2 t₂.day ++
      (padNum 2 t₂.hour ++ padNum 2 t₂.minute))) := by
    have := congrArg String.data h
    simpa [strftimeYmdHM, List.append_assoc] using this
  have s1 := List.append_inj hdata (by simp [padNum_length])
  have s2 := List.append_inj s1.2 (by simp [padNum_length])
  have s3 := List.append_inj s2.2 (by simp [padNum_length])
  have s4 := List.append_inj s3.2 (by simp [padNum_length])
  refine ⟨padNum_inj 4 _ _ (by norm_num [hy₁]) (by norm_num [hy₂]) s1.1,
    padNum_inj 2 _ _ (by norm_num [hmo₁]) (by norm_num [hmo₂]) s2.1,
    padNum_inj 2 _ _ (by norm_num [hd₁]) (by norm_num [hd₂]) s3.1,
    padNum_inj 2 _ _ (by norm_num [hh₁]) (by norm_num [hh₂]) s4.1,
    padNum_inj 2 _ _ (by norm_num [hmi₁]) (by norm_num [hmi₂]) s4.2⟩

theorem string_data_append (a b : String) : (a ++ b).data = a.data ++ b.data := rfl

theorem string_ext {a b : String} (h : a.data = b.data) : a = b := by
  cases a; cases b; exact congrArg String.mk h

theorem strftimeYmdHM_data_length (t : PyDateTime) :
    (strftimeYmdHM t).data.length = 12 := by
  simp [strftimeYmdHM, padNum_length]

theorem eventUid_inj (t₁ t₂ : PyDateTime) (k₁ k₂ : String) (s₁ s₂ : String)
    (hv₁ : validStamp t₁) (hv₂ : validStamp t₂)
    (hk : k₁.length = k₂.length)
    (h : eventUid t₁ (Json.str k₁) s₁ = eventUid t₂ (Json.str k₂) s₂) :
    (t₁.year = t₂.year ∧ t₁.month = t₂.month ∧ t₁.day = t₂.day ∧
      t₁.hour = t₂.hour ∧ t₁.minute = t₂.minute) ∧ k₁ = k₂ ∧ s₁ = s₂ := by
  have hdash : ("-" : String).data = ['-'] := rfl
  have hd : (strftimeYmdHM t₁).data ++ ('-' :: (k₁.data ++ ('-' :: (s₁.data ++
      "@tide.tw".data)))) = (strftimeYmdHM t₂).data ++ ('-' :: (k₂.data ++
      ('-' :: (s₂.data ++ "@tide.tw".data)))) := by
    have := congrArg String.data h
    simpa [eventUid, pyStr, string_data_append, hdash, List.append_assoc] using this
  have p1 := List.append_inj hd
    ((strftimeYmdHM_data_length t₁).trans (strftimeYmdHM_data_length t₂).symm)
  have pf := strftimeYmdHM_inj t₁ t₂ hv₁ hv₂ (string_ext p1.1)
  have p1t := (List.cons.inj p1.2).2
  have p2 := List.append_inj p1t hk
  have hkk : k₁ = k₂ := string_ext p2.1
  have p2t := (List.cons.inj p2.2).2
  have hslen : s₁.data.length = s₂.data.length := by
    have := congrArg List.length p2t
    rw [List.length_append, List.length_append] at this
    omega
  have p3 := List.append_inj p2t hslen
  exact ⟨pf, hkk, string_ext p3.1⟩

/-- A concrete stand-in for `datetime.fromisoformat` recognizing the ISO
instants used in concrete scenarios (format `2025-12-29T05:01:00+08:00`). -/
def pisoDemo (s : String) : Option PyDateTime :=
  if s = "2025-12-29T05:01:00+08:00" then some ⟨2025, 12, 29, 5, 1, 0⟩
  else if s = "2025-12-29T11:30:00+08:00" then some ⟨2025, 12, 29, 11, 30, 0⟩
  else none

/-- C1 (counterexample): the claim fails on `tide_calendar.py`'s
`create_ical`: with `now = 2025-12-29T00:00+08:00` and `daysAhead = 30`, an
event exactly at `now − 1 day` satisfies the claimed inclusion predicate
`now − 1 day ≤ t ≤ now + 30 days`, yet that variant's calendar contains no
event block for it. -/
theorem C1_window_predicate_cex :
    (PyDateTime.mk 2025 12 29 0 0 0).toSec - 86400 ≤ (PyDateTime.mk 2025 12 28 0 0 0).toSec ∧
    (PyDateTime.mk 2025 12 28 0 0 0).toSec ≤ (PyDateTime.mk 2025 12 29 0 0 0).toSec + 86400 * 30 ∧
    (create_ical "基隆市中正區"
      [⟨⟨2025, 12, 28, 0, 0, 0⟩, Json.str "滿潮", Json.str "120", Json.str ""⟩]
      30 ⟨2025, 12, 29, 0, 0, 0⟩).events = [] :=
  ⟨by decide, by decide, rfl⟩

/-- C1 (amended): for every `now`, `daysAhead ∈ [7,30]` and event timestamp
`t`, the window filter inside `api/index.py`'s calendar creation keeps `t`
iff `now − 1 day ≤ t ≤ now + daysAhead days` (both boundaries inclusive,
so `now − 1 day` is kept and `now − 1 day − 1 s` is not), while the filter
inside `tide_calendar.py`'s calendar creation has no backward pad: it keeps
`t` iff `now ≤ t ≤ now + daysAhead days`, excluding an event exactly at
`now − 1 day`. -/
theorem C1_window_predicate (now : PyDateTime) (daysAhead : Int) (t : PyDateTime)
    (h7 : 7 ≤ daysAhead) (h30 : daysAhead ≤ 30) :
    (windowKeep_api now daysAhead t = true ↔
      now.toSec - 86400 ≤ t.toSec ∧ t.toSec ≤ now.toSec + 86400 * daysAhead) ∧
    (windowKeep_tide now daysAhead t = true ↔
      now.toSec ≤ t.toSec ∧ t.toSec ≤ now.toSec + 86400 * daysAhead) := by
  refine ⟨?_, ?_⟩
  · simp only [windowKeep_api, Bool.not_eq_eq_eq_not, Bool.not_true,
      Bool.or_eq_false_iff, decide_eq_false_iff_not, not_lt]
  · simp only [windowKeep_tide, Bool.not_eq_eq_eq_not, Bool.not_true,
      Bool.or_eq_false_iff, decide_eq_false_iff_not, not_lt]

theorem C1_window_predicate_witness :
    ((7 : Int) ≤ 30 ∧ (30 : Int) ≤ 30) ∧
    ((windowKeep_api ⟨2025, 12, 29, 0, 0, 0⟩ 30 ⟨2025, 12, 28, 0, 0, 0⟩ = true ↔
      (PyDateTime.mk 2025 12 29 0 0 0).toSec - 86400 ≤ (PyDateTime.mk 2025 12 28 0 0 0).toSec ∧
      (PyDateTime.mk 2025 12 28 0 0 0).toSec ≤ (PyDateTime.mk 2025 12 29 0 0 0).toSec + 86400 * 30) ∧
    (windowKeep_tide ⟨2025, 12, 29, 0, 0, 0⟩ 30 ⟨2025, 12, 28, 0, 0, 0⟩ = true ↔
      (PyDateTime.mk 2025 12 29 0 0 0).toSec ≤ (PyDateTime.mk 2025 12 28 0 0 0).toSec ∧
      (PyDateTime.mk 2025 12 28 0 0 0).toSec ≤ (PyDateTime.mk 2025 12 29 0 0 0).toSec + 86400 * 30)) :=
  ⟨⟨by norm_num, le_refl 30⟩,
    C1_window_predicate ⟨2025, 12, 29, 0, 0, 0⟩ 30 ⟨2025, 12, 28, 0, 0, 0⟩
      (by norm_num) (le_refl 30)⟩

/-- C2 (counterexample): the claim fails on `api/index.py`'s normalizer: on a
row carrying a non-empty height under the local-mean-sea-level datum (`"100"`)
and under TWVD (`"50"`), the normalized event's height is the TWVD value, not
the local-MSL value the claimed priority demands. -/
theorem C2_height_priority_cex :
    parse_tide_events_api pisoDemo "基隆市中正區"
      (encodePayload [⟨"基隆市中正區", [⟨Json.str "", [⟨Json.str "滿潮",
        "2025-12-29T05:01:00+08:00",
        [("AboveLocalMSL", Json.str "100"), ("AboveTWVD", Json.str "50"),
          ("AboveChartDatum", Json.str "")]⟩]⟩]⟩]) =
      .ok ([⟨⟨2025, 12, 29, 5, 1, 0⟩, Json.str "滿潮", Json.str "50", Json.str ""⟩], []) ∧
    Json.str "50" ≠ Json.str "100" := by
  refine ⟨rfl, fun hcontra => ?_⟩
  simp at hcontra

/-- C2 (amended): each variant picks the first truthy height value in its own
fixed datum order — `tide_calendar.py` tries local mean sea level, then TWVD,
then chart datum, while `api/index.py` tries TWVD, then local mean sea level,
then chart datum; in both, a value present only under a lower-priority datum
is selected rather than left empty. -/
theorem C2_height_priority (hL hT hC : Json) :
    (pyTruthy hL = true → tideRowHeight (Json.obj [("AboveLocalMSL", hL),
      ("AboveTWVD", hT), ("AboveChartDatum", hC)]) = .ok hL) ∧
    (pyTruthy hL = false → pyTruthy hT = true → tideRowHeight (Json.obj
      [("AboveLocalMSL", hL), ("AboveTWVD", hT), ("AboveChartDatum", hC)]) = .ok hT) ∧
    (pyTruthy hL = false → pyTruthy hT = false → tideRowHeight (Json.obj
      [("AboveLocalMSL", hL), ("AboveTWVD", hT), ("AboveChartDatum", hC)]) = .ok hC) ∧
    (pyTruthy hT = true → apiRowHeight (Json.obj [("AboveLocalMSL", hL),
      ("AboveTWVD", hT), ("AboveChartDatum", hC)]) = .ok hT) ∧
    (pyTruthy hT = false → pyTruthy hL = true → apiRowHeight (Json.obj
      [("AboveLocalMSL", hL), ("AboveTWVD", hT), ("AboveChartDatum", hC)]) = .ok hL) ∧
    (pyTruthy hT = false → pyTruthy hL = false → apiRowHeight (Json.obj
      [("AboveLocalMSL", hL), ("AboveTWVD", hT), ("AboveChartDatum", hC)]) = .ok hC) := by
  refine ⟨fun h1 => ?_, fun h1 h2 => ?_, fun h1 h2 => ?_,
    fun h1 => ?_, fun h1 h2 => ?_, fun h1 h2 => ?_⟩ <;>
    simp [tideRowHeight, apiRowHeight, jGetD, List.lookup, Bind.bind, Except.bind,
      pyOr, *]

theorem C2_height_priority_witness :
    pyTruthy (Json.str "") = false ∧ pyTruthy (Json.str "50") = true ∧
    tideRowHeight (Json.obj [("AboveLocalMSL", Json.str ""),
      ("AboveTWVD", Json.str "50"), ("AboveChartDatum", Json.str "")]) =
      .ok (Json.str "50") :=
  ⟨rfl, rfl,
    (C2_height_priority (Json.str "") (Json.str "50") (Json.str "")).2.1 rfl rfl⟩

/-- C3 (counterexample): the claim fails as stated: two events whose
timestamps are distinct (they differ in the seconds field, which
`strftime('%Y%m%d%H%M')` discards) but share kind and station receive the
same unique identifier. -/
theorem C3_uid_cex :
    eventUid ⟨2025, 12, 29, 5, 1, 0⟩ (Json.str "滿潮") "基隆市中正區" =
      eventUid ⟨2025, 12, 29, 5, 1, 30⟩ (Json.str "滿潮") "基隆市中正區" ∧
    (⟨2025, 12, 29, 5, 1, 0⟩ : PyDateTime) ≠ ⟨2025, 12, 29, 5, 1, 30⟩ :=
  ⟨rfl, by decide⟩

/-- C3 (amended): the unique identifier is a deterministic function of the
triple, and it is injective up to minute precision: whenever two events with
datetime fields in Python's ranges and kind labels of equal length (as the
two fixed tide labels 滿潮/乾潮 are) receive the same identifier, their
timestamps agree on every field down to the minute, and their kind labels and
station names are identical — so triples distinct at minute precision yield
distinct identifiers. -/
theorem C3_uid_injective (t₁ t₂ : PyDateTime) (k₁ k₂ s₁ s₂ : String)
    (hv₁ : validStamp t₁) (hv₂ : validStamp t₂) (hk : k₁.length = k₂.length)
    (h : eventUid t₁ (Json.str k₁) s₁ = eventUid t₂ (Json.str k₂) s₂) :
    (t₁.year = t₂.year ∧ t₁.month = t₂.month ∧ t₁.day = t₂.day ∧
      t₁.hour = t₂.hour ∧ t₁.minute = t₂.minute) ∧ k₁ = k₂ ∧ s₁ = s₂ :=
  eventUid_inj t₁ t₂ k₁ k₂ s₁ s₂ hv₁ hv₂ hk h

theorem C3_uid_injective_witness :
    validStamp ⟨2025, 12, 29, 5, 1, 0⟩ ∧
    ((PyDateTime.mk 2025 12 29 5 1 0).year = (PyDateTime.mk 2025 12 29 5 1 0).year ∧
      (PyDateTime.mk 2025 12 29 5 1 0).month = (PyDateTime.mk 2025 12 29 5 1 0).month ∧
      (PyDateTime.mk 2025 12 29 5 1 0).day = (PyDateTime.mk 2025 12 29 5 1 0).day ∧
      (PyDateTime.mk 2025 12 29 5 1 0).hour = (PyDateTime.mk 2025 12 29 5 1 0).hour ∧
      (PyDateTime.mk 2025 12 29 5 1 0).minute = (PyDateTime.mk 2025 12 29 5 1 0).minute) ∧
    ("滿潮" : String) = "滿潮" ∧ ("基隆市中正區" : String) = "基隆市中正區" :=
  ⟨by decide,
    C3_uid_injective ⟨2025, 12, 29, 5, 1, 0⟩ ⟨2025, 12, 29, 5, 1, 0⟩
      "滿潮" "滿潮" "基隆市中正區" "基隆市中正區" (by decide) (by decide) rfl rfl⟩

/-- C4 (counterexample): the claim fails on `tide_calendar.py`'s normalizer:
a payload pre-filtered to a single location whose recorded name differs from
the requested station name is double-filtered to zero events by the
location-name re-check, even though it carries a parseable extremum row. -/
theorem C4_prefiltered_cex :
    parse_tide_events pisoDemo "基隆市中正區"
      (encodePayload [⟨"Keelung", [⟨Json.str "", [⟨Json.str "滿潮",
        "2025-12-29T05:01:00+08:00", []⟩]⟩]⟩]) = .ok ([], []) ∧
    specEventsApi pisoDemo [⟨"Keelung", [⟨Json.str "", [⟨Json.str "滿潮",
      "2025-12-29T05:01:00+08:00", []⟩]⟩]⟩] ≠ [] := by
  refine ⟨rfl, fun h => ?_⟩
  exact absurd (congrArg List.length h) (by decide)

/-- C4 (amended): only the `api/index.py` normalizer accepts a pre-filtered
payload without re-checking the location name: its result never depends on
the requested station name at all, and on a pre-filtered single-location
payload it returns that location's events; the `tide_calendar.py` normalizer
instead re-checks `LocationName` and drops every block whose name differs
from the requested station name. -/
theorem C4_no_name_recheck (piso : String → Option PyDateTime)
    (st₁ st₂ : String) (j : Json) (ls : List LocationBlock) :
    parse_tide_events_api piso st₁ j = parse_tide_events_api piso st₂ j ∧
    resultEvents (parse_tide_events_api piso st₁ (encodePayload ls)) =
      some (specEventsApi piso ls) := by
  refine ⟨rfl, ?_⟩
  simp [resultEvents, parse_tide_events_api_encode, Except.toOption]

/-- C5: a payload whose records object carries neither of the two known
top-level forecast-list keys, and likewise one whose nested event lists are
absent (forecast blocks without a `Daily` list), normalizes to zero events
with no diagnostic and raises no exception, in both variants. -/
theorem C5_unrecognized_schema (piso : String → Option PyDateTime)
    (st : String) (rec : List (String × Json))
    (h1 : rec.lookup "TideForecasts" = none)
    (h2 : rec.lookup "TideForecast" = none) (names : List String) :
    parse_tide_events piso st (Json.obj [("records", Json.obj rec)]) = .ok ([], []) ∧
    parse_tide_events_api piso st (Json.obj [("records", Json.obj rec)]) = .ok ([], []) ∧
    parse_tide_events piso st (Json.obj [("records", Json.obj [("TideForecasts",
      Json.arr (names.map fun nm => Json.obj [("Location", Json.obj
        [("LocationName", Json.str nm),
          ("TimePeriods", Json.obj [])])]))])]) = .ok ([], []) ∧
    parse_tide_events_api piso st (Json.obj [("records", Json.obj [("TideForecasts",
      Json.arr (names.map fun nm => Json.obj [("Location", Json.obj
        [("LocationName", Json.str nm),
          ("TimePeriods", Json.obj [])])]))])]) = .ok ([], []) := by
  have hshape : ∀ nm, forecastEventsTide piso st (Json.obj [("Location", Json.obj
      [("LocationName", Json.str nm), ("TimePeriods", Json.obj [])])]) =
      .ok ([], []) := by
    intro nm
    by_cases hn : nm == st <;>
      simp [forecastEventsTide, jGetD, List.lookup, jEqStr, Json.asArr, gatherM,
        Bind.bind, Except.bind, hn]
  have hshapeApi : ∀ nm, forecastEventsApi piso (Json.obj [("Location", Json.obj
      [("LocationName", Json.str nm), ("TimePeriods", Json.obj [])])]) =
      .ok ([], []) := by
    intro nm
    simp [forecastEventsApi, jGetD, List.lookup, Json.asArr, gatherM,
      Bind.bind, Except.bind]
  have hgather : ∀ (f : Json → Except String (List TideEvent × List String)),
      (∀ nm, f (Json.obj [("Location", Json.obj [("LocationName", Json.str nm),
        ("TimePeriods", Json.obj [])])]) = .ok ([], [])) →
      gatherM f (names.map fun nm => Json.obj [("Location", Json.obj
        [("LocationName", Json.str nm), ("TimePeriods", Json.obj [])])]) =
        .ok ([], []) := by
    intro f hf
    induction names with
    | nil => rfl
    | cons nm names ih => simp [gatherM, hf, ih, Bind.bind, Except.bind]
  exact ⟨by simp [parse_tide_events, jGetD, List.lookup, h1, h2, Json.asArr,
      gatherM, Bind.bind, Except.bind],
    by simp [parse_tide_events_api, jGetD, List.lookup, h1, h2, Json.asArr,
      gatherM, Bind.bind, Except.bind],
    by simp [parse_tide_events, jGetD, List.lookup, Json.asArr, Bind.bind,
      Except.bind, hgather _ hshape],
    by simp [parse_tide_events_api, jGetD, List.lookup, Json.asArr, Bind.bind,
      Except.bind, hgather _ hshapeApi]⟩

theorem C5_unrecognized_schema_witness :
    (List.lookup "TideForecasts" ([("resource_id", Json.str "x")] : List (String × Json)) = none) ∧
    (List.lookup "TideForecast" ([("resource_id", Json.str "x")] : List (String × Json)) = none) ∧
    parse_tide_events (fun _ => none) "基隆市中正區"
      (Json.obj [("records", Json.obj [("resource_id", Json.str "x")])]) = .ok ([], []) :=
  ⟨rfl, rfl,
    (C5_unrecognized_schema (fun _ => none) "基隆市中正區"
      [("resource_id", Json.str "x")] rfl rfl ["基隆市中正區"]).1⟩

/-- C6: over every structured payload, both normalizers return (without
raising) exactly the normalized events of the rows whose `DateTime` string is
present and parses, together with one recorded diagnostic per non-empty but
unparseable `DateTime`; rows that fail to parse are skipped and never abort
the normalization of the remaining rows. -/
theorem C6_skip_unparseable_rows (piso : String → Option PyDateTime)
    (st : String) (ls : List LocationBlock) :
    parse_tide_events piso st (encodePayload ls) =
      .ok (specEventsTide piso st ls, specLogsTide piso st ls) ∧
    parse_tide_events_api piso st (encodePayload ls) =
      .ok (specEventsApi piso ls, specLogsApi piso ls) :=
  ⟨parse_tide_events_encode piso st ls, parse_tide_events_api_encode piso st ls⟩

/-- C7 (counterexample): the claim fails as stated: the generation instant
also anchors the window filter inside `create_ical`, so two serializations of
the same event list at sufficiently different generation times differ beyond
the dtstamp field — here the first document contains one event block and the
second none. -/
theorem C7_idempotence_cex :
    (create_ical_api "基隆市中正區"
      [⟨⟨2025, 12, 29, 5, 1, 0⟩, Json.str "滿潮", Json.str "120", Json.str ""⟩]
      30 ⟨2025, 12, 29, 0, 0, 0⟩).stripStamps ≠
    (create_ical_api "基隆市中正區"
      [⟨⟨2025, 12, 29, 5, 1, 0⟩, Json.str "滿潮", Json.str "120", Json.str ""⟩]
      30 ⟨2026, 3, 1, 0, 0, 0⟩).stripStamps := by
  intro h
  exact absurd (congrArg (fun c => c.events.length) h) (by decide)

/-- C7 (amended): given the same normalized event list and station label, two
serializations at different generation times are identical except for each
event block's generation-timestamp field, provided the two generation
instants select the same window subset of the events (as they do whenever
every event lies inside both windows); otherwise the documents can differ in
which event blocks appear at all. -/
theorem C7_idempotent_modulo_dtstamp (st : String) (evs : List TideEvent)
    (days : Int) (now₁ now₂ : PyDateTime)
    (hapi : evs.filter (fun e => windowKeep_api now₁ days e.datetime) =
      evs.filter (fun e => windowKeep_api now₂ days e.datetime))
    (htide : evs.filter (fun e => windowKeep_tide now₁ days e.datetime) =
      evs.filter (fun e => windowKeep_tide now₂ days e.datetime)) :
    (create_ical_api st evs days now₁).stripStamps =
      (create_ical_api st evs days now₂).stripStamps ∧
    (create_ical st evs days now₁).stripStamps =
      (create_ical st evs days now₂).stripStamps := by
  have key : ∀ now : PyDateTime,
      ((fun v => { v with dtstamp := epochZero }) ∘ mkVEvent st now) =
        mkVEvent st epochZero :=
    fun now => funext fun e => by simp [mkVEvent]
  constructor <;>
    simp [create_ical_api, create_ical, ICal.stripStamps, List.map_map, key,
      hapi, htide]

theorem C7_idempotent_modulo_dtstamp_witness :
    ([⟨⟨2025, 12, 29, 5, 1, 0⟩, Json.str "滿潮", Json.str "120", Json.str ""⟩]
        : List TideEvent).filter
        (fun e => windowKeep_api ⟨2025, 12, 29, 0, 0, 0⟩ 30 e.datetime) =
      [⟨⟨2025, 12, 29, 5, 1, 0⟩, Json.str "滿潮", Json.str "120", Json.str ""⟩].filter
        (fun e => windowKeep_api ⟨2025, 12, 29, 0, 0, 0⟩ 30 e.datetime) ∧
    (create_ical_api "基隆市中正區"
      [⟨⟨2025, 12, 29, 5, 1, 0⟩, Json.str "滿潮", Json.str "120", Json.str ""⟩]
      30 ⟨2025, 12, 29, 0, 0, 0⟩).stripStamps =
    (create_ical_api "基隆市中正區"
      [⟨⟨2025, 12, 29, 5, 1, 0⟩, Json.str "滿潮", Json.str "120", Json.str ""⟩]
      30 ⟨2025, 12, 29, 0, 0, 0⟩).stripStamps :=
  ⟨rfl, (C7_idempotent_modulo_dtstamp "基隆市中正區"
    [⟨⟨2025, 12, 29, 5, 1, 0⟩, Json.str "滿潮", Json.str "120", Json.str ""⟩]
    30 ⟨2025, 12, 29, 0, 0, 0⟩ ⟨2025, 12, 29, 0, 0, 0⟩ rfl rfl).1⟩

/-- C8: a missing or undecodable station-directory file loads as the empty
directory instead of crashing; against an empty directory every station
lookup fails, and in general the route's unknown-station error response
carries the full list of known station names. -/
theorem C8_load_failure_empty (inp : LoadInput)
    (hin : inp = .fileMissing ∨ inp = .decodeError)
    (apiKey station : String) (daysArg : Int) (hkey : apiKey ≠ "")
    (stations : List (Json × Json))
    (hmiss : ∀ k ∈ stations.map Prod.fst, jEqStr k station = false) :
    load_tide_stations inp = .ok [] ∧
    tide_calendar_route apiKey [] station daysArg =
      .unknownStation ("Unknown station: " ++ station) [] ∧
    tide_calendar_route apiKey stations station daysArg =
      .unknownStation ("Unknown station: " ++ station) (stations.map Prod.fst) := by
  refine ⟨?_, ?_, ?_⟩
  · rcases hin with h | h <;> simp [h, load_tide_stations]
  · simp [tide_calendar_route, hkey]
  · simp [tide_calendar_route, hkey, List.any_eq_false]
    intro a b hab
    exact hmiss a (List.mem_map_of_mem Prod.fst hab)

theorem C8_load_failure_empty_witness :
    load_tide_stations .fileMissing = .ok [] ∧
    tide_calendar_route "secret-key" [] "基隆市中正區" 30 =
      .unknownStation ("Unknown station: " ++ "基隆市中正區") [] ∧
    tide_calendar_route "secret-key" [(Json.str "高雄港", Json.str "A001")]
      "基隆市中正區" 30 =
      .unknownStation ("Unknown station: " ++ "基隆市中正區") [Json.str "高雄港"] :=
  C8_load_failure_empty .fileMissing (Or.inl rfl) "secret-key" "基隆市中正區" 30
    (by decide) [(Json.str "高雄港", Json.str "A001")] (by decide)

/-- C9: both normalizers treat falsy height values (numeric zero, the empty
string) as absent: a falsy value under the first-priority datum is never
selected, the next datum's value is taken instead, and when every datum's
value is falsy the resulting height is itself falsy (rendered as absent
downstream). -/
theorem C9_falsy_height_fallthrough (hL hT hC : Json) :
    pyTruthy (Json.num 0) = false ∧ pyTruthy (Json.str "") = false ∧
    (pyTruthy hL = false → tideRowHeight (Json.obj [("AboveLocalMSL", hL),
      ("AboveTWVD", hT), ("AboveChartDatum", hC)]) = .ok (pyOr hT hC)) ∧
    (pyTruthy hT = false → apiRowHeight (Json.obj [("AboveLocalMSL", hL),
      ("AboveTWVD", hT), ("AboveChartDatum", hC)]) = .ok (pyOr hL hC)) ∧
    (pyTruthy hL = false → pyTruthy hT = false → pyTruthy hC = false →
      ∃ r, tideRowHeight (Json.obj [("AboveLocalMSL", hL), ("AboveTWVD", hT),
        ("AboveChartDatum", hC)]) = .ok r ∧ pyTruthy r = false) ∧
    (pyTruthy hT = false → pyTruthy hL = false → pyTruthy hC = false →
      ∃ r, apiRowHeight (Json.obj [("AboveLocalMSL", hL), ("AboveTWVD", hT),
        ("AboveChartDatum", hC)]) = .ok r ∧ pyTruthy r = false) := by
  refine ⟨rfl, rfl, fun h1 => ?_, fun h1 => ?_,
    fun h1 h2 h3 => ⟨hC, ?_, h3⟩, fun h1 h2 h3 => ⟨hC, ?_, h3⟩⟩ <;>
    simp [tideRowHeight, apiRowHeight, jGetD, List.lookup, Bind.bind, Except.bind,
      pyOr, *]

theorem C9_falsy_height_fallthrough_witness :
    pyTruthy (Json.num 0) = false ∧
    tideRowHeight (Json.obj [("AboveLocalMSL", Json.num 0),
      ("AboveTWVD", Json.str "87"), ("AboveChartDatum", Json.str "")]) =
      .ok (pyOr (Json.str "87") (Json.str "")) :=
  ⟨rfl, (C9_falsy_height_fallthrough (Json.num 0) (Json.str "87")
    (Json.str "")).2.2.1 rfl⟩

theorem flatMap_filter_eq {α β : Type} (p : α → Bool) (g : α → List β)
    (hg : ∀ a, p a = false → g a = []) (xs : List α) :
    (xs.filter p).flatMap g = xs.flatMap g := by
  induction xs with
  | nil => rfl
  | cons x xs ih =>
    cases hx : p x
    · simp [List.filter_cons, hx, ih, hg x hx]
    · simp [List.filter_cons, hx, ih]

theorem flatMap_map_eq {α β γ : Type} (f : α → β) (g : β → List γ) (xs : List α) :
    (xs.map f).flatMap g = xs.flatMap fun a => g (f a) := by
  induction xs <;> simp_all

theorem specRowEvent_empty (piso : String → Option PyDateTime)
    (selVal : List (String × Json) → Json) (lun : Json) (r : TideRow)
    (hr : r.dateTime = "") : specRowEvent piso selVal lun r = none := by
  simp [specRowEvent, hr]

theorem specRowLog_empty (piso : String → Option PyDateTime) (r : TideRow)
    (hr : r.dateTime = "") : specRowLog piso r = [] := by
  simp [specRowLog, hr]

theorem specDaily_dropEmpty {β : Type} (G : Json → TideRow → List β)
    (hG : ∀ lun r, r.dateTime = "" → G lun r = []) (d : DailyBlock) :
    ((d.rows.filter fun r => !(r.dateTime == "")).flatMap (G d.lunarDate)) =
      d.rows.flatMap (G d.lunarDate) :=
  flatMap_filter_eq _ _ (fun r hr => hG d.lunarDate r (by simpa using hr)) d.rows

theorem specEventsTide_dropEmpty (piso : String → Option PyDateTime)
    (st : String) (ls : List LocationBlock) :
    specEventsTide piso st (dropEmptyRows ls) = specEventsTide piso st ls := by
  unfold specEventsTide dropEmptyRows
  rw [flatMap_map_eq]
  refine congrArg (List.flatMap ls) (funext fun l => ?_)
  simp only
  by_cases hn : l.name == st
  · simp only [hn, if_true]
    rw [flatMap_map_eq]
    refine congrArg (List.flatMap l.dailies) (funext fun d => ?_)
    exact specDaily_dropEmpty
      (fun lun r => (specRowEvent piso rowHeightTideVal lun r).toList)
      (fun lun r hr => by simp [specRowEvent_empty piso _ lun r hr]) d
  · simp [hn]

theorem specLogsTide_dropEmpty (piso : String → Option PyDateTime)
    (st : String) (ls : List LocationBlock) :
    specLogsTide piso st (dropEmptyRows ls) = specLogsTide piso st ls := by
  unfold specLogsTide dropEmptyRows
  rw [flatMap_map_eq]
  refine congrArg (List.flatMap ls) (funext fun l => ?_)
  simp only
  by_cases hn : l.name == st
  · simp only [hn, if_true]
    rw [flatMap_map_eq]
    refine congrArg (List.flatMap l.dailies) (funext fun d => ?_)
    exact specDaily_dropEmpty (fun _ r => specRowLog piso r)
      (fun _ r hr => specRowLog_empty piso r hr) d
  · simp [hn]

theorem specEventsApi_dropEmpty (piso : String → Option PyDateTime)
    (ls : List LocationBlock) :
    specEventsApi piso (dropEmptyRows ls) = specEventsApi piso ls := by
  unfold specEventsApi dropEmptyRows
  rw [flatMap_map_eq]
  refine congrArg (List.flatMap ls) (funext fun l => ?_)
  simp only
  rw [flatMap_map_eq]
  refine congrArg (List.flatMap l.dailies) (funext fun d => ?_)
  exact specDaily_dropEmpty
    (fun lun r => (specRowEvent piso rowHeightApiVal lun r).toList)
    (fun lun r hr => by simp [specRowEvent_empty piso _ lun r hr]) d

theorem specLogsApi_dropEmpty (piso : String → Option PyDateTime)
    (ls : List LocationBlock) :
    specLogsApi piso (dropEmptyRows ls) = specLogsApi piso ls := by
  unfold specLogsApi dropEmptyRows
  rw [flatMap_map_eq]
  refine congrArg (List.flatMap ls) (funext fun l => ?_)
  simp only
  rw [flatMap_map_eq]
  refine congrArg (List.flatMap l.dailies) (funext fun d => ?_)
  exact specDaily_dropEmpty (fun _ r => specRowLog piso r)
    (fun _ r hr => specRowLog_empty piso r hr) d

/-- C10: rows whose `DateTime` is absent (the empty string) are dropped
silently by both normalizers — removing them from the payload changes neither
the events nor the diagnostics, and nothing is raised — whereas a row whose
`DateTime` is non-empty but unparseable is skipped *with* a recorded
diagnostic. -/
theorem C10_empty_datetime_silent (piso : String → Option PyDateTime)
    (st : String) (ls : List LocationBlock) :
    parse_tide_events piso st (encodePayload ls) =
      parse_tide_events piso st (encodePayload (dropEmptyRows ls)) ∧
    parse_tide_events_api piso st (encodePayload ls) =
      parse_tide_events_api piso st (encodePayload (dropEmptyRows ls)) ∧
    (∀ (nm : String) (lun ty : Json) (hs : List (String × Json)) (s : String),
      s ≠ "" → piso s = none →
      parse_tide_events_api piso st (encodePayload [⟨nm, [⟨lun, [⟨ty, s, hs⟩]⟩]⟩]) =
        .ok ([], [parseFailMsg s])) := by
  refine ⟨?_, ?_, ?_⟩
  · rw [parse_tide_events_encode, parse_tide_events_encode,
      specEventsTide_dropEmpty, specLogsTide_dropEmpty]
  · rw [parse_tide_events_api_encode, parse_tide_events_api_encode,
      specEventsApi_dropEmpty, specLogsApi_dropEmpty]
  · intro nm lun ty hs s hne hpn
    rw [parse_tide_events_api_encode]
    simp [specEventsApi, specLogsApi, specDailyEventsApi, specDailyLogs,
      specRowEvent, specRowLog, hne, hpn]

theorem C10_empty_datetime_silent_witness :
    ("2025-12-29T99:99:99" : String) ≠ "" ∧
    parse_tide_events_api (fun _ => none) "基隆市中正區"
      (encodePayload [⟨"基隆市中正區", [⟨Json.str "",
        [⟨Json.str "滿潮", "2025-12-29T99:99:99", []⟩]⟩]⟩]) =
      .ok ([], [parseFailMsg "2025-12-29T99:99:99"]) :=
  ⟨by decide,
    (C10_empty_datetime_silent (fun _ => none) "基隆市中正區" []).2.2
      "基隆市中正區" (Json.str "") (Json.str "滿潮") [] "2025-12-29T99:99:99"
      (by decide) rfl⟩
